import Mathlib

/-!
Verification of the kafky-event-driven-chat event pipeline.

Shallow embedding of the repository's core components:
* `DomainEvent.make` — the `DomainEvent` constructor (src/domain-event.js);
* `busEmit` — the intercepted `emit` of the `EventBusWrapper`
  (event-bus.js): eager emit, durable append, promotion, guaranteed emit,
  with the surrounding try/catch;
* `projectorHandle` — the body of the Projector's
  `incoming-message-KAFKED` handler (persistence-service.js).

JavaScript specifics that matter here are modelled explicitly: `x || null`
treats the empty string as falsy (`jsOrNull`); the event object is a single
mutable cell, so `busEmit` reports both the snapshots delivered to handlers
and the final state of that cell (`finalEvent`); a synchronous throw from a
listener aborts the remaining listeners of that dispatch and is caught by
the bus's catch block, which only logs.
-/

namespace Kafky

/-- Outcome of a database/promise operation: it resolves with a value or
    rejects with an error message. -/
inductive DbResult (α : Type) where
  | ok (value : α)
  | error (msg : String)
deriving Repr, DecidableEq

/-- The `metadata` object attached to every `DomainEvent`
    (domain-event.js, constructor), together with the `logId` slot that the
    bus's promotion step later fills in: `none` models an absent / null
    `logId`, `some n` a set one. -/
structure Metadata where
  timestamp : String
  correlationId : Option String
  causationId : Option String
  logId : Option Nat
deriving Repr, DecidableEq

/-- A domain event; `α` is the payload type, which the bus treats as
    opaque. -/
structure DomainEvent (α : Type) where
  eventId : String
  type : String
  payload : α
  metadata : Metadata
deriving Repr, DecidableEq

/-- The optional `metadata` argument of the `DomainEvent` constructor. -/
structure MetaArg where
  correlationId : Option String := none
  causationId : Option String := none
deriving Repr, DecidableEq

/-- JavaScript `x || null` for a string-or-null `x`: both `null` and the
    empty string are falsy, so both become `null`; any other string is
    kept. -/
def jsOrNull : Option String → Option String
  | none => none
  | some s => if s = "" then none else some s

/-- Modelled from the external `uuid` library (an out-of-repo collaborator):
    an injective supply of non-empty identifier strings, indexed by the
    number of identifiers drawn so far. Only the properties the repository
    relies on — freshness/uniqueness and non-emptiness — are represented. -/
def uuidv4 (n : Nat) : String := String.mk (List.replicate (n + 1) 'u')

/-- `new DomainEvent(type, payload, metadata = {})` (domain-event.js).
    `uuid` stands for the value returned by `uuidv4()` and `now` for
    `new Date().toISOString()` at construction time. The constructed
    metadata has no `logId` key, modelled as `none`. -/
def DomainEvent.make (uuid now : String) (type : String) (payload : α)
    (meta : MetaArg) : DomainEvent α :=
  { eventId := uuid
    type := type
    payload := payload
    metadata :=
      { timestamp := now
        correlationId := jsOrNull meta.correlationId
        causationId := jsOrNull meta.causationId
        logId := none } }

/-- `t` ends with the literal `-KAFKED` suffix. -/
def hasKafkedTag (t : String) : Prop := "-KAFKED".data <:+ t.data

instance (t : String) : Decidable (hasKafkedTag t) :=
  inferInstanceAs (Decidable (_ <:+ _))

/-- A listener registered on the native `EventEmitter`: `hid` identifies
    the registration, and `throws e` says whether invoking it on `e` raises
    a synchronous exception. (The repository's own subscribers are `async`
    functions, which never throw synchronously.) -/
structure Handler (α : Type) where
  hid : Nat
  throws : DomainEvent α → Bool

/-- One observable step of a single `publish` (`emit`) call, in execution
    order: an eager-phase handler invocation, the durable-append call with
    its outcome, a guaranteed-phase handler invocation, or a
    `console.error` from the bus's catch block. -/
inductive Step (α : Type) where
  | eagerCall (hid : Nat) (e : DomainEvent α)
  | appendCall (e : DomainEvent α) (result : DbResult Nat)
  | guaranteedCall (hid : Nat) (e : DomainEvent α)
  | errorLog
deriving Repr, DecidableEq

/-- Native `EventEmitter.emit`: invoke the listeners in registration order,
    stopping at the first synchronous throw, which propagates to the
    caller. Returns the `hid`s of the listeners actually invoked and
    whether an exception escaped. -/
def runHandlers (e : DomainEvent α) : List (Handler α) → List Nat × Bool
  | [] => ([], false)
  | h :: rest =>
    if h.throws e then ([h.hid], true)
    else
      let r := runHandlers e rest
      (h.hid :: r.1, r.2)

/-- What a single `emit` call produced: the trace of observable steps, the
    final state of the (mutable) event object once `emit` has finished —
    i.e. what any retained reference to the event observes afterwards —
    and whether `emit` propagated an exception to its caller. -/
structure EmitResult (α : Type) where
  trace : List (Step α)
  finalEvent : DomainEvent α
  thrownToCaller : Bool
deriving Repr

/-- The `-KAFKED`-promoted form of `event`: same object with `type`
    suffixed and `metadata.logId` set (event-bus.js, STEP 2). -/
def promote (event : DomainEvent α) (logId : Nat) : DomainEvent α :=
  { event with
      type := event.type ++ "-KAFKED"
      metadata := { event.metadata with logId := some logId } }

/-- The intercepted `emit` of the `EventBusWrapper` (event-bus.js):
    inside one try/catch, (0) eagerly emit to listeners of `event.type`;
    (1) await `db.logEvent(event)`; on success (2) mutate the event's
    `metadata.logId` and `type`, then (3) emit to listeners of the suffixed
    type. Any exception — a synchronous throw from a listener or a rejected
    append — lands in the catch block, which logs a `console.error` and
    rethrows nothing. -/
def busEmit (listeners : String → List (Handler α))
    (logEvent : DomainEvent α → DbResult Nat)
    (event : DomainEvent α) : EmitResult α :=
  let eager := runHandlers event (listeners event.type)
  let eagerSteps := eager.1.map (fun i => Step.eagerCall i event)
  if eager.2 then
    { trace := eagerSteps ++ [Step.errorLog]
      finalEvent := event
      thrownToCaller := false }
  else
    match logEvent event with
    | .error msg =>
        { trace := eagerSteps ++ [Step.appendCall event (.error msg), Step.errorLog]
          finalEvent := event
          thrownToCaller := false }
    | .ok logId =>
        let promoted := promote event logId
        let guar := runHandlers promoted (listeners (event.type ++ "-KAFKED"))
        { trace := eagerSteps ++ [Step.appendCall event (.ok logId)]
              ++ guar.1.map (fun i => Step.guaranteedCall i promoted)
              ++ (if guar.2 then [Step.errorLog] else [])
          finalEvent := promoted
          thrownToCaller := false }

/-- The eager-phase deliveries recorded in a trace, in order: pairs of the
    invoked handler's id and the event state it observed. -/
def eagerDeliveries : List (Step α) → List (Nat × DomainEvent α)
  | [] => []
  | .eagerCall i e :: r => (i, e) :: eagerDeliveries r
  | _ :: r => eagerDeliveries r

/-- The guaranteed-phase deliveries recorded in a trace, in order. -/
def guaranteedDeliveries : List (Step α) → List (Nat × DomainEvent α)
  | [] => []
  | .guaranteedCall i e :: r => (i, e) :: guaranteedDeliveries r
  | _ :: r => guaranteedDeliveries r

/-- All handler deliveries (either phase) recorded in a trace, in order. -/
def allDeliveries : List (Step α) → List (Nat × DomainEvent α)
  | [] => []
  | .eagerCall i e :: r => (i, e) :: allDeliveries r
  | .guaranteedCall i e :: r => (i, e) :: allDeliveries r
  | _ :: r => allDeliveries r

/-- The durable-append calls recorded in a trace, with their outcomes. -/
def appendAttempts : List (Step α) → List (DomainEvent α × DbResult Nat)
  | [] => []
  | .appendCall e res :: r => (e, res) :: appendAttempts r
  | _ :: r => appendAttempts r

/-- Number of `console.error` reports in a trace. -/
def errorReports : List (Step α) → Nat
  | [] => 0
  | .errorLog :: r => errorReports r + 1
  | _ :: r => errorReports r

/-- Phase rank of a step: eager deliveries happen in phase 0, the durable
    append in phase 1, guaranteed deliveries in phase 2; the catch block's
    log is last. -/
def stepRank : Step α → Nat
  | .eagerCall .. => 0
  | .appendCall .. => 1
  | .guaranteedCall .. => 2
  | .errorLog => 3

/-- Payload of an `incoming-message` event, as destructured by the
    Projector. -/
structure MsgPayload where
  chatId : Nat
  userId : Nat
  messageText : String
deriving Repr, DecidableEq

/-- The record returned by `db.getEventByLogId`: a row of the `event_log`
    table. Only the fields the Projector reads or could read (its `type`
    check and its payload) are modelled. -/
structure StoredEvent where
  type : String
  payload : MsgPayload
deriving Repr, DecidableEq

/-- What one run of the Projector's handler did: the `getEventByLogId`
    calls it made, the `addMessage` (read-model write) calls it made with
    their `(chatId, userId, messageText)` arguments, the events it
    published on the bus, and how many `console.error` reports it made.
    `ρ` is the type of the row `db.addMessage` resolves with. -/
structure ProjectorResult (ρ : Type) where
  fetchCalls : List (Option Nat)
  writeCalls : List (Nat × Nat × String)
  emits : List (DomainEvent ρ)
  errorLogs : Nat
deriving Repr

/-- The body of the Projector's `incoming-message-KAFKED` handler
    (persistence-service.js, `PersistenceService.listen`): destructure
    `payload` and `metadata` from the notification; fetch the stored event
    by `metadata.logId`; halt with a log if it is missing or its type is
    not `incoming-message`; otherwise write the read-model row from the
    destructured `payload` (note: the notification's payload) and publish
    a `message-projected` event. The surrounding try/catch turns any
    rejection into a single `console.error`. `uuid` and `now` stand for
    the identifier and timestamp drawn inside the `DomainEvent`
    constructor. -/
def projectorHandle (getEventByLogId : Option Nat → DbResult (Option StoredEvent))
    (addMessage : Nat → Nat → String → DbResult ρ)
    (uuid now : String)
    (incomingEvent : DomainEvent MsgPayload) : ProjectorResult ρ :=
  let payload := incomingEvent.payload
  let metadata := incomingEvent.metadata
  match getEventByLogId metadata.logId with
  | .error _ =>
      { fetchCalls := [metadata.logId], writeCalls := [], emits := [], errorLogs := 1 }
  | .ok none =>
      { fetchCalls := [metadata.logId], writeCalls := [], emits := [], errorLogs := 1 }
  | .ok (some ev) =>
      if ev.type ≠ "incoming-message" then
        { fetchCalls := [metadata.logId], writeCalls := [], emits := [], errorLogs := 1 }
      else
        let chatId := payload.chatId
        let userId := payload.userId
        let messageText := payload.messageText
        match addMessage chatId userId messageText with
        | .error _ =>
            { fetchCalls := [metadata.logId]
              writeCalls := [(chatId, userId, messageText)]
              emits := []
              errorLogs := 1 }
        | .ok projectedMessage =>
            let projectedEvent := DomainEvent.make uuid now ("message-projected")
                projectedMessage
                { correlationId := metadata.correlationId
                  causationId := some incomingEvent.eventId }
            { fetchCalls := [metadata.logId]
              writeCalls := [(chatId, userId, messageText)]
              emits := [projectedEvent]
              errorLogs := 0 }

/-! ### Helper lemmas about the embedded operations -/

theorem hasKafkedTag_of_append (b : String) : hasKafkedTag (b ++ "-KAFKED") := by
  unfold hasKafkedTag
  rw [String.data_append]
  exact List.suffix_append _ _

theorem uuidv4_injOn {m n : Nat} (h : uuidv4 m = uuidv4 n) : m = n := by
  have hlen := congrArg String.length h
  simpa [uuidv4, String.length_mk, List.length_replicate] using hlen

theorem uuidv4_ne_empty (n : Nat) : uuidv4 n ≠ "" := by
  intro h
  have hlen := congrArg String.length h
  simp [uuidv4, String.length_mk, List.length_replicate] at hlen

theorem runHandlers_eq_of_noThrow (e : DomainEvent α) (hs : List (Handler α))
    (h : hs.any (fun x => x.throws e) = false) :
    runHandlers e hs = (hs.map Handler.hid, false) := by
  induction hs with
  | nil => rfl
  | cons a t ih =>
    simp only [List.any_cons, Bool.or_eq_false_iff] at h
    simp [runHandlers, h.1, ih h.2]

theorem runHandlers_snd_eq_any (e : DomainEvent α) (hs : List (Handler α)) :
    (runHandlers e hs).2 = hs.any (fun x => x.throws e) := by
  induction hs with
  | nil => rfl
  | cons a t ih =>
    cases hthrow : a.throws e <;> simp [runHandlers, hthrow, ih]

theorem busEmit_of_eagerThrow (listeners : String → List (Handler α))
    (logEvent : DomainEvent α → DbResult Nat) (event : DomainEvent α)
    (h : (listeners event.type).any (fun x => x.throws event) = true) :
    busEmit listeners logEvent event =
      { trace := (runHandlers event (listeners event.type)).1.map
            (fun i => Step.eagerCall i event) ++ [Step.errorLog]
        finalEvent := event
        thrownToCaller := false } := by
  have h2 : (runHandlers event (listeners event.type)).2 = true := by
    rw [runHandlers_snd_eq_any]; exact h
  simp [busEmit, h2]

theorem busEmit_of_appendError (listeners : String → List (Handler α))
    (logEvent : DomainEvent α → DbResult Nat) (event : DomainEvent α) (msg : String)
    (h1 : (listeners event.type).any (fun x => x.throws event) = false)
    (h2 : logEvent event = .error msg) :
    busEmit listeners logEvent event =
      { trace := (listeners event.type).map (fun x => Step.eagerCall x.hid event)
            ++ [Step.appendCall event (.error msg), Step.errorLog]
        finalEvent := event
        thrownToCaller := false } := by
  simp [busEmit, runHandlers_eq_of_noThrow event _ h1, h2]

theorem busEmit_of_appendOk (listeners : String → List (Handler α))
    (logEvent : DomainEvent α → DbResult Nat) (event : DomainEvent α) (logId : Nat)
    (h1 : (listeners event.type).any (fun x => x.throws event) = false)
    (h2 : logEvent event = .ok logId) :
    busEmit listeners logEvent event =
      { trace := (listeners event.type).map (fun x => Step.eagerCall x.hid event)
            ++ Step.appendCall event (.ok logId)
              :: ((runHandlers (promote event logId)
                      (listeners (event.type ++ "-KAFKED"))).1.map
                    (fun i => Step.guaranteedCall i (promote event logId))
                  ++ (if (runHandlers (promote event logId)
                          (listeners (event.type ++ "-KAFKED"))).2 then
                        [Step.errorLog] else []))
        finalEvent := promote event logId
        thrownToCaller := false } := by
  simp [busEmit, runHandlers_eq_of_noThrow event _ h1, h2]

theorem eagerDeliveries_append (a b : List (Step α)) :
    eagerDeliveries (a ++ b) = eagerDeliveries a ++ eagerDeliveries b := by
  induction a with
  | nil => rfl
  | cons s t ih => cases s <;> simp [eagerDeliveries, ih]

theorem guaranteedDeliveries_append (a b : List (Step α)) :
    guaranteedDeliveries (a ++ b) = guaranteedDeliveries a ++ guaranteedDeliveries b := by
  induction a with
  | nil => rfl
  | cons s t ih => cases s <;> simp [guaranteedDeliveries, ih]

theorem allDeliveries_append (a b : List (Step α)) :
    allDeliveries (a ++ b) = allDeliveries a ++ allDeliveries b := by
  induction a with
  | nil => rfl
  | cons s t ih => cases s <;> simp [allDeliveries, ih]

theorem appendAttempts_append (a b : List (Step α)) :
    appendAttempts (a ++ b) = appendAttempts a ++ appendAttempts b := by
  induction a with
  | nil => rfl
  | cons s t ih => cases s <;> simp [appendAttempts, ih]

theorem errorReports_append (a b : List (Step α)) :
    errorReports (a ++ b) = errorReports a + errorReports b := by
  induction a with
  | nil => simp [errorReports]
  | cons s t ih => cases s <;> (simp [errorReports, ih]; try omega)

theorem eagerDeliveries_map_eagerCall (l : List β) (f : β → Nat) (e : DomainEvent α) :
    eagerDeliveries (l.map (fun x => Step.eagerCall (f x) e))
      = l.map (fun x => (f x, e)) := by
  induction l with
  | nil => rfl
  | cons x t ih => simp [eagerDeliveries, ih]

theorem eagerDeliveries_map_guaranteedCall (l : List β) (f : β → Nat) (e : DomainEvent α) :
    eagerDeliveries (l.map (fun x => Step.guaranteedCall (f x) e)) = [] := by
  induction l with
  | nil => rfl
  | cons x t ih => simp [eagerDeliveries, ih]

theorem guaranteedDeliveries_map_eagerCall (l : List β) (f : β → Nat) (e : DomainEvent α) :
    guaranteedDeliveries (l.map (fun x => Step.eagerCall (f x) e)) = [] := by
  induction l with
  | nil => rfl
  | cons x t ih => simp [guaranteedDeliveries, ih]

theorem guaranteedDeliveries_map_guaranteedCall (l : List β) (f : β → Nat)
    (e : DomainEvent α) :
    guaranteedDeliveries (l.map (fun x => Step.guaranteedCall (f x) e))
      = l.map (fun x => (f x, e)) := by
  induction l with
  | nil => rfl
  | cons x t ih => simp [guaranteedDeliveries, ih]

theorem allDeliveries_map_eagerCall (l : List β) (f : β → Nat) (e : DomainEvent α) :
    allDeliveries (l.map (fun x => Step.eagerCall (f x) e))
      = l.map (fun x => (f x, e)) := by
  induction l with
  | nil => rfl
  | cons x t ih => simp [allDeliveries, ih]

theorem allDeliveries_map_guaranteedCall (l : List β) (f : β → Nat) (e : DomainEvent α) :
    allDeliveries (l.map (fun x => Step.guaranteedCall (f x) e))
      = l.map (fun x => (f x, e)) := by
  induction l with
  | nil => rfl
  | cons x t ih => simp [allDeliveries, ih]

theorem appendAttempts_map_eagerCall (l : List β) (f : β → Nat) (e : DomainEvent α) :
    appendAttempts (l.map (fun x => Step.eagerCall (f x) e)) = [] := by
  induction l with
  | nil => rfl
  | cons x t ih => simp [appendAttempts, ih]

theorem appendAttempts_map_guaranteedCall (l : List β) (f : β → Nat) (e : DomainEvent α) :
    appendAttempts (l.map (fun x => Step.guaranteedCall (f x) e)) = [] := by
  induction l with
  | nil => rfl
  | cons x t ih => simp [appendAttempts, ih]

theorem errorReports_map_eagerCall (l : List β) (f : β → Nat) (e : DomainEvent α) :
    errorReports (l.map (fun x => Step.eagerCall (f x) e)) = 0 := by
  induction l with
  | nil => rfl
  | cons x t ih => simp [errorReports, ih]

theorem errorReports_map_guaranteedCall (l : List β) (f : β → Nat) (e : DomainEvent α) :
    errorReports (l.map (fun x => Step.guaranteedCall (f x) e)) = 0 := by
  induction l with
  | nil => rfl
  | cons x t ih => simp [errorReports, ih]

theorem eagerDeliveries_errorLog_ite (c : Bool) :
    eagerDeliveries (if c then ([Step.errorLog] : List (Step α)) else []) = [] := by
  cases c <;> rfl

theorem guaranteedDeliveries_errorLog_ite (c : Bool) :
    guaranteedDeliveries (if c then ([Step.errorLog] : List (Step α)) else []) = [] := by
  cases c <;> rfl

theorem allDeliveries_errorLog_ite (c : Bool) :
    allDeliveries (if c then ([Step.errorLog] : List (Step α)) else []) = [] := by
  cases c <;> rfl

theorem appendAttempts_errorLog_ite (c : Bool) :
    appendAttempts (if c then ([Step.errorLog] : List (Step α)) else []) = [] := by
  cases c <;> rfl

theorem pairwise_le_of_const (l : List Nat) (c : Nat) (hl : ∀ x ∈ l, x = c) :
    l.Pairwise (· ≤ ·) := by
  induction l with
  | nil => exact List.Pairwise.nil
  | cons a t ih =>
    refine List.Pairwise.cons ?_ (ih fun x hx => hl x (List.mem_cons_of_mem a hx))
    intro b hb
    rw [hl a (List.mem_cons_self a t), hl b (List.mem_cons_of_mem a hb)]

theorem sorted_const_append (l : List Nat) (c : Nat) (t : List Nat)
    (hl : ∀ x ∈ l, x = c) (ht : t.Sorted (· ≤ ·)) (hct : ∀ y ∈ t, c ≤ y) :
    (l ++ t).Sorted (· ≤ ·) := by
  rw [List.Sorted, List.pairwise_append]
  refine ⟨pairwise_le_of_const l c hl, ht, ?_⟩
  intro a ha b hb
  rw [hl a ha]
  exact hct b hb

/-! ### Claim theorems -/

/-- C2: for every event whose durable append succeeds, the bus invokes each
    guaranteed-phase subscriber exactly once, strictly after the append step
    of the trace, and every guaranteed-phase delivery carries the event with
    its type equal to the original type plus the literal suffix `-KAFKED`
    and `metadata.logId` non-null and equal to the identifier returned by
    the store's append. (The no-synchronous-throw hypotheses reflect the
    repository's subscribers, which are async functions and therefore never
    throw synchronously.) -/
theorem c2_guaranteed_phase_exactly_once
    (listeners : String → List (Handler α)) (logEvent : DomainEvent α → DbResult Nat)
    (event : DomainEvent α) (logId : Nat)
    (heager : (listeners event.type).any (fun x => x.throws event) = false)
    (happend : logEvent event = .ok logId)
    (hguar : (listeners (event.type ++ "-KAFKED")).any
        (fun x => x.throws (promote event logId)) = false) :
    guaranteedDeliveries (busEmit listeners logEvent event).trace
      = (listeners (event.type ++ "-KAFKED")).map (fun x => (x.hid, promote event logId))
    ∧ (∀ d ∈ guaranteedDeliveries (busEmit listeners logEvent event).trace,
        d.2.type = event.type ++ "-KAFKED" ∧ d.2.metadata.logId = some logId)
    ∧ (busEmit listeners logEvent event).trace
      = (listeners event.type).map (fun x => Step.eagerCall x.hid event)
        ++ Step.appendCall event (.ok logId)
          :: (listeners (event.type ++ "-KAFKED")).map
              (fun x => Step.guaranteedCall x.hid (promote event logId)) := by
  have hrun := runHandlers_eq_of_noThrow (promote event logId)
      (listeners (event.type ++ "-KAFKED")) hguar
  have He : guaranteedDeliveries (busEmit listeners logEvent event).trace
      = (listeners (event.type ++ "-KAFKED")).map (fun x => (x.hid, promote event logId)) := by
    rw [busEmit_of_appendOk listeners logEvent event logId heager happend]
    simp [hrun, guaranteedDeliveries_append, guaranteedDeliveries_map_eagerCall,
      guaranteedDeliveries, guaranteedDeliveries_map_guaranteedCall, List.map_map,
      Function.comp_def]
  refine ⟨He, ?_, ?_⟩
  · intro d hd
    rw [He, List.mem_map] at hd
    obtain ⟨x, hx, rfl⟩ := hd
    exact ⟨rfl, rfl⟩
  · rw [busEmit_of_appendOk listeners logEvent event logId heager happend]
    simp [hrun, List.map_map, Function.comp_def]

/-- C3: when the store's append fails, no guaranteed-phase handler is
    invoked, the event is not promoted (the final state of the event object
    is unchanged: no `-KAFKED` suffix, no `logId`), the eager-phase
    handlers were still invoked exactly once each, and the failure is
    reported (one `console.error`) at the bus boundary. -/
theorem c3_append_failure_not_promoted
    (listeners : String → List (Handler α)) (logEvent : DomainEvent α → DbResult Nat)
    (event : DomainEvent α) (msg : String)
    (heager : (listeners event.type).any (fun x => x.throws event) = false)
    (happend : logEvent event = .error msg)
    (hlog : event.metadata.logId = none)
    (htype : ¬ hasKafkedTag event.type) :
    guaranteedDeliveries (busEmit listeners logEvent event).trace = []
    ∧ (busEmit listeners logEvent event).finalEvent = event
    ∧ ¬ hasKafkedTag (busEmit listeners logEvent event).finalEvent.type
    ∧ (busEmit listeners logEvent event).finalEvent.metadata.logId = none
    ∧ eagerDeliveries (busEmit listeners logEvent event).trace
        = (listeners event.type).map (fun x => (x.hid, event))
    ∧ errorReports (busEmit listeners logEvent event).trace = 1 := by
  rw [busEmit_of_appendError listeners logEvent event msg heager happend]
  refine ⟨?_, rfl, htype, hlog, ?_, ?_⟩
  · simp [guaranteedDeliveries_append, guaranteedDeliveries_map_eagerCall,
      guaranteedDeliveries]
  · simp [eagerDeliveries_append, eagerDeliveries_map_eagerCall, eagerDeliveries]
  · simp [errorReports_append, errorReports, errorReports_map_eagerCall]

/-- C9: the promotion step on a successful append changes only the event's
    `type` and `metadata.logId`; the `eventId`, `payload`, `timestamp`,
    `correlationId` and `causationId` of the final event state — which is
    what guaranteed-phase handlers observe and what any eager subscriber
    retaining its reference to the (single, mutated in place) event object
    observes after the publish — are identical to what the eager phase was
    delivered. -/
theorem c9_promotion_frame
    (listeners : String → List (Handler α)) (logEvent : DomainEvent α → DbResult Nat)
    (event : DomainEvent α) (logId : Nat)
    (heager : (listeners event.type).any (fun x => x.throws event) = false)
    (happend : logEvent event = .ok logId) :
    (busEmit listeners logEvent event).finalEvent.eventId = event.eventId
    ∧ (busEmit listeners logEvent event).finalEvent.payload = event.payload
    ∧ (busEmit listeners logEvent event).finalEvent.metadata.timestamp
        = event.metadata.timestamp
    ∧ (busEmit listeners logEvent event).finalEvent.metadata.correlationId
        = event.metadata.correlationId
    ∧ (busEmit listeners logEvent event).finalEvent.metadata.causationId
        = event.metadata.causationId
    ∧ (busEmit listeners logEvent event).finalEvent.type = event.type ++ "-KAFKED"
    ∧ (busEmit listeners logEvent event).finalEvent.metadata.logId = some logId
    ∧ (∀ d ∈ eagerDeliveries (busEmit listeners logEvent event).trace, d.2 = event)
    ∧ (∀ d ∈ guaranteedDeliveries (busEmit listeners logEvent event).trace,
        d.2 = (busEmit listeners logEvent event).finalEvent) := by
  rw [busEmit_of_appendOk listeners logEvent event logId heager happend]
  refine ⟨rfl, rfl, rfl, rfl, rfl, rfl, rfl, ?_, ?_⟩
  · intro d hd
    simp only [eagerDeliveries_append, eagerDeliveries_map_eagerCall, eagerDeliveries,
      eagerDeliveries_map_guaranteedCall, eagerDeliveries_errorLog_ite,
      List.append_nil, List.nil_append] at hd
    rw [List.mem_map] at hd
    obtain ⟨x, hx, rfl⟩ := hd
    rfl
  · intro d hd
    simp only [guaranteedDeliveries_append, guaranteedDeliveries_map_eagerCall,
      guaranteedDeliveries, guaranteedDeliveries_map_guaranteedCall,
      guaranteedDeliveries_errorLog_ite, List.append_nil, List.nil_append] at hd
    rw [List.mem_map] at hd
    obtain ⟨i, hi, rfl⟩ := hd
    rfl

/-- C10: a synchronous throw from an eager-phase handler is caught by the
    bus, which skips the durable append entirely (the event is never
    persisted), invokes no guaranteed-phase handler, leaves the event
    unpromoted, and reports a single error; and `emit` never propagates an
    exception to the publisher in any branch. -/
theorem c10_emit_swallows_failures
    (listeners : String → List (Handler α)) (logEvent : DomainEvent α → DbResult Nat)
    (event : DomainEvent α) :
    (busEmit listeners logEvent event).thrownToCaller = false
    ∧ ((listeners event.type).any (fun x => x.throws event) = true →
        appendAttempts (busEmit listeners logEvent event).trace = []
        ∧ guaranteedDeliveries (busEmit listeners logEvent event).trace = []
        ∧ (busEmit listeners logEvent event).finalEvent = event
        ∧ errorReports (busEmit listeners logEvent event).trace = 1) := by
  constructor
  · cases hE : (listeners event.type).any (fun x => x.throws event) with
    | false =>
      cases hL : logEvent event with
      | ok v => rw [busEmit_of_appendOk listeners logEvent event v hE hL]
      | error m => rw [busEmit_of_appendError listeners logEvent event m hE hL]
    | true => rw [busEmit_of_eagerThrow listeners logEvent event hE]
  · intro hE
    rw [busEmit_of_eagerThrow listeners logEvent event hE]
    refine ⟨?_, ?_, rfl, ?_⟩
    · simp [appendAttempts_append, appendAttempts_map_eagerCall, appendAttempts]
    · simp [guaranteedDeliveries_append, guaranteedDeliveries_map_eagerCall,
        guaranteedDeliveries]
    · simp [errorReports_append, errorReports,
        errorReports_map_eagerCall]

/-- C4: for every published event that, as freshly constructed, carries no
    `logId`, every eager-phase delivery observes exactly that event — with
    no `logId` set — and the per-event phase ordering is absolute: mapping
    each step of the publish trace to its phase rank (eager 0, append 1,
    guaranteed 2, final catch-block log 3) yields a monotonically
    non-decreasing sequence, so no step of a later phase ever occurs before
    every step of an earlier phase. -/
theorem c4_phase_ordering
    (listeners : String → List (Handler α)) (logEvent : DomainEvent α → DbResult Nat)
    (event : DomainEvent α)
    (hlog : event.metadata.logId = none) :
    (∀ d ∈ eagerDeliveries (busEmit listeners logEvent event).trace, d.2 = event)
    ∧ (∀ d ∈ eagerDeliveries (busEmit listeners logEvent event).trace,
        d.2.metadata.logId = none)
    ∧ ((busEmit listeners logEvent event).trace.map stepRank).Sorted (· ≤ ·) := by
  have hEager : ∀ d ∈ eagerDeliveries (busEmit listeners logEvent event).trace,
      d.2 = event := by
    cases hE : (listeners event.type).any (fun x => x.throws event) with
    | true =>
      rw [busEmit_of_eagerThrow listeners logEvent event hE]
      intro d hd
      simp only [eagerDeliveries_append, eagerDeliveries_map_eagerCall, eagerDeliveries,
        List.append_nil] at hd
      rw [List.mem_map] at hd
      obtain ⟨i, hi, rfl⟩ := hd
      rfl
    | false =>
      cases hL : logEvent event with
      | error m =>
        rw [busEmit_of_appendError listeners logEvent event m hE hL]
        intro d hd
        simp only [eagerDeliveries_append, eagerDeliveries_map_eagerCall,
          eagerDeliveries, List.append_nil] at hd
        rw [List.mem_map] at hd
        obtain ⟨x, hx, rfl⟩ := hd
        rfl
      | ok v =>
        rw [busEmit_of_appendOk listeners logEvent event v hE hL]
        intro d hd
        simp only [eagerDeliveries_append, eagerDeliveries_map_eagerCall,
          eagerDeliveries, eagerDeliveries_map_guaranteedCall,
          eagerDeliveries_errorLog_ite, List.append_nil, List.nil_append] at hd
        rw [List.mem_map] at hd
        obtain ⟨x, hx, rfl⟩ := hd
        rfl
  refine ⟨hEager, ?_, ?_⟩
  · intro d hd
    rw [hEager d hd]
    exact hlog
  · cases hE : (listeners event.type).any (fun x => x.throws event) with
    | true =>
      rw [busEmit_of_eagerThrow listeners logEvent event hE]
      simp only [List.map_append, List.map_cons, List.map_nil, List.map_map,
        Function.comp_def, stepRank]
      refine sorted_const_append _ 0 _ ?_ ?_ ?_
      · intro x hx
        rw [List.mem_map] at hx
        obtain ⟨i, hi, rfl⟩ := hx
        rfl
      · exact List.sorted_singleton 3
      · intro y hy
        exact Nat.zero_le y
    | false =>
      cases hL : logEvent event with
      | error m =>
        rw [busEmit_of_appendError listeners logEvent event m hE hL]
        simp only [List.map_append, List.map_cons, List.map_nil, List.map_map,
          Function.comp_def, stepRank]
        refine sorted_const_append _ 0 _ ?_ ?_ ?_
        · intro x hx
          rw [List.mem_map] at hx
          obtain ⟨i, hi, rfl⟩ := hx
          rfl
        · rw [List.sorted_cons]
          refine ⟨?_, List.sorted_singleton 3⟩
          intro b hb
          rw [List.mem_singleton] at hb
          omega
        · intro y hy
          exact Nat.zero_le y
      | ok v =>
        rw [busEmit_of_appendOk listeners logEvent event v hE hL]
        cases hG : (runHandlers (promote event v) (listeners (event.type ++ "-KAFKED"))).2 with
        | false =>
          have hite : (if false = true then [Step.errorLog]
              else ([] : List (Step α))) = [] := rfl
          rw [hite]
          simp only [List.append_nil, List.map_append, List.map_cons, List.map_map,
            Function.comp_def, stepRank]
          refine sorted_const_append _ 0 _ ?_ ?_ ?_
          · intro x hx
            rw [List.mem_map] at hx
            obtain ⟨i, hi, rfl⟩ := hx
            rfl
          · rw [List.sorted_cons]
            refine ⟨?_, pairwise_le_of_const _ 2 ?_⟩
            · intro b hb
              rw [List.mem_map] at hb
              obtain ⟨i, hi, rfl⟩ := hb
              omega
            · intro x hx
              rw [List.mem_map] at hx
              obtain ⟨i, hi, rfl⟩ := hx
              rfl
          · intro y hy
            exact Nat.zero_le y
        | true =>
          have hite : (if true = true then [Step.errorLog]
              else ([] : List (Step α))) = [Step.errorLog] := rfl
          rw [hite]
          simp only [List.map_append, List.map_cons, List.map_nil, List.map_map,
            Function.comp_def, stepRank]
          refine sorted_const_append _ 0 _ ?_ ?_ ?_
          · intro x hx
            rw [List.mem_map] at hx
            obtain ⟨i, hi, rfl⟩ := hx
            rfl
          · rw [List.sorted_cons]
            constructor
            · intro b hb
              rw [List.mem_append] at hb
              rcases hb with hb | hb
              · rw [List.mem_map] at hb
                obtain ⟨i, hi, rfl⟩ := hb
                omega
              · rw [List.mem_singleton] at hb
                omega
            · refine sorted_const_append _ 2 _ ?_ (List.sorted_singleton 3) ?_
              · intro x hx
                rw [List.mem_map] at hx
                obtain ⟨i, hi, rfl⟩ := hx
                rfl
              · intro y hy
                rw [List.mem_singleton] at hy
                omega
          · intro y hy
            exact Nat.zero_le y

/-- C8: at every point where the bus delivers an event to a handler —
    eager or guaranteed phase, in every branch — the delivered event state
    satisfies the tagging invariant: a `-KAFKED`-suffixed type implies a
    non-null `metadata.logId`, and an unsuffixed type implies no `logId`.
    The hypotheses state that the published event is a freshly constructed
    one: no `logId` yet and a base type without the reserved suffix, which
    is how every `emit` call site in the repository constructs events. -/
theorem c8_delivery_tag_invariant
    (listeners : String → List (Handler α)) (logEvent : DomainEvent α → DbResult Nat)
    (event : DomainEvent α)
    (hlog : event.metadata.logId = none)
    (htype : ¬ hasKafkedTag event.type) :
    ∀ d ∈ allDeliveries (busEmit listeners logEvent event).trace,
      (hasKafkedTag d.2.type → d.2.metadata.logId ≠ none)
      ∧ (¬ hasKafkedTag d.2.type → d.2.metadata.logId = none) := by
  cases hE : (listeners event.type).any (fun x => x.throws event) with
  | true =>
    rw [busEmit_of_eagerThrow listeners logEvent event hE]
    intro d hd
    simp only [allDeliveries_append, allDeliveries_map_eagerCall, allDeliveries,
      List.append_nil] at hd
    rw [List.mem_map] at hd
    obtain ⟨i, hi, rfl⟩ := hd
    exact ⟨fun hk => absurd hk htype, fun _ => hlog⟩
  | false =>
    cases hL : logEvent event with
    | error m =>
      rw [busEmit_of_appendError listeners logEvent event m hE hL]
      intro d hd
      simp only [allDeliveries_append, allDeliveries_map_eagerCall, allDeliveries,
        List.append_nil] at hd
      rw [List.mem_map] at hd
      obtain ⟨x, hx, rfl⟩ := hd
      exact ⟨fun hk => absurd hk htype, fun _ => hlog⟩
    | ok v =>
      rw [busEmit_of_appendOk listeners logEvent event v hE hL]
      intro d hd
      simp only [allDeliveries_append, allDeliveries_map_eagerCall, allDeliveries,
        allDeliveries_map_guaranteedCall, allDeliveries_errorLog_ite,
        List.append_nil] at hd
      rw [List.mem_append] at hd
      rcases hd with hd | hd
      · rw [List.mem_map] at hd
        obtain ⟨x, hx, rfl⟩ := hd
        exact ⟨fun hk => absurd hk htype, fun _ => hlog⟩
      · rw [List.mem_map] at hd
        obtain ⟨i, hi, rfl⟩ := hd
        constructor
        · intro hk
          simp [promote]
        · intro hcon
          exact absurd (hasKafkedTag_of_append event.type) hcon

/-- C5: whenever the Projector's re-fetch by `logId` returns no record, or a
    record whose type is not the expected inbound type `incoming-message`,
    the handler aborts the attempt: it makes no read-model write call,
    publishes no event, makes exactly the one fetch call (no retry), and
    surfaces the anomaly only through a single error log. -/
theorem c5_projector_abort_on_invalid_fetch
    (getEventByLogId : Option Nat → DbResult (Option StoredEvent))
    (addMessage : Nat → Nat → String → DbResult ρ)
    (uuid now : String) (incomingEvent : DomainEvent MsgPayload)
    (hbad : getEventByLogId incomingEvent.metadata.logId = .ok none
        ∨ ∃ ev, getEventByLogId incomingEvent.metadata.logId = .ok (some ev)
            ∧ ev.type ≠ "incoming-message") :
    (projectorHandle getEventByLogId addMessage uuid now incomingEvent).writeCalls = []
    ∧ (projectorHandle getEventByLogId addMessage uuid now incomingEvent).emits = []
    ∧ (projectorHandle getEventByLogId addMessage uuid now incomingEvent).errorLogs = 1
    ∧ (projectorHandle getEventByLogId addMessage uuid now incomingEvent).fetchCalls
        = [incomingEvent.metadata.logId] := by
  rcases hbad with h | ⟨ev, h, hty⟩
  · refine ⟨?_, ?_, ?_, ?_⟩ <;> simp [projectorHandle, h]
  · refine ⟨?_, ?_, ?_, ?_⟩ <;> simp [projectorHandle, h, hty]

/-- C6: for every successful projection (re-fetch finds a record of the
    expected type and the read-model write resolves), the Projector
    publishes exactly one new Domain Event, of type `message-projected`,
    whose `metadata.correlationId` equals the triggering guaranteed event's
    `metadata.correlationId` and whose `metadata.causationId` equals the
    triggering event's `eventId`. The two non-emptiness hypotheses reflect
    the triggering events of the running system, whose correlation and
    event identifiers are uuids and never the (JavaScript-falsy) empty
    string. -/
theorem c6_projected_event_causality
    (getEventByLogId : Option Nat → DbResult (Option StoredEvent))
    (addMessage : Nat → Nat → String → DbResult ρ)
    (uuid now : String) (incomingEvent : DomainEvent MsgPayload)
    (ev : StoredEvent) (row : ρ)
    (hfetch : getEventByLogId incomingEvent.metadata.logId = .ok (some ev))
    (htype : ev.type = "incoming-message")
    (hwrite : addMessage incomingEvent.payload.chatId incomingEvent.payload.userId
        incomingEvent.payload.messageText = .ok row)
    (hcorr : incomingEvent.metadata.correlationId ≠ some (""))
    (hid : incomingEvent.eventId ≠ "") :
    (projectorHandle getEventByLogId addMessage uuid now incomingEvent).emits.length = 1
    ∧ ∀ d ∈ (projectorHandle getEventByLogId addMessage uuid now incomingEvent).emits,
        d.type = "message-projected"
        ∧ d.metadata.correlationId = incomingEvent.metadata.correlationId
        ∧ d.metadata.causationId = some incomingEvent.eventId := by
  have hemits : (projectorHandle getEventByLogId addMessage uuid now incomingEvent).emits
      = [DomainEvent.make uuid now ("message-projected") row
          { correlationId := incomingEvent.metadata.correlationId
            causationId := some incomingEvent.eventId }] := by
    simp [projectorHandle, hfetch, htype, hwrite]
  refine ⟨by rw [hemits]; rfl, ?_⟩
  intro d hd
  rw [hemits, List.mem_singleton] at hd
  subst hd
  refine ⟨rfl, ?_, ?_⟩
  · show jsOrNull incomingEvent.metadata.correlationId
        = incomingEvent.metadata.correlationId
    cases hc : incomingEvent.metadata.correlationId with
    | none => rfl
    | some s =>
      have hs : s ≠ "" := by
        intro h0
        apply hcorr
        rw [hc, h0]
      simp [jsOrNull, hs]
  · show jsOrNull (some incomingEvent.eventId) = some incomingEvent.eventId
    simp [jsOrNull, hid]

/-- C1: evaluation of the Projector handler at a guaranteed notification
    whose payload differs from the payload stored in the Event Store at the
    notified `logId` (notification text `hi`, stored text `bye`). The
    handler writes the read-model row from the notification's payload, not
    from the re-fetched record's payload — contradicting both the spec and
    the code's own comments, which say the fetched event is the source of
    truth and the notification's payload is not trusted. -/
theorem c1_projection_uses_notification_payload :
    (projectorHandle
        (fun l => if l = some 42 then
            DbResult.ok (some (⟨"incoming-message", ⟨1, 7, "bye"⟩⟩ : StoredEvent))
          else DbResult.ok none)
        (fun c u m => DbResult.ok ((⟨c, u, m⟩ : MsgPayload)))
        ("u9") ("t9")
        (⟨"u7", "incoming-message-KAFKED", ⟨1, 7, "hi"⟩,
          ⟨"t0", some ("c0"), none, some 42⟩⟩ : DomainEvent MsgPayload)).writeCalls
      = [(1, 7, "hi")]
    ∧ (projectorHandle
        (fun l => if l = some 42 then
            DbResult.ok (some (⟨"incoming-message", ⟨1, 7, "bye"⟩⟩ : StoredEvent))
          else DbResult.ok none)
        (fun c u m => DbResult.ok ((⟨c, u, m⟩ : MsgPayload)))
        ("u9") ("t9")
        (⟨"u7", "incoming-message-KAFKED", ⟨1, 7, "hi"⟩,
          ⟨"t0", some ("c0"), none, some 42⟩⟩ : DomainEvent MsgPayload)).writeCalls
      ≠ [(1, 7, "bye")] := by
  constructor
  · rfl
  · decide

/-- C7 (counterexample): the claim that `metadata.correlationId` is copied
    from the supplied metadata whenever it is present fails on the code at
    the concrete input `correlationId = ""`: JavaScript's `|| null`
    treats the (present) empty string as falsy and stores null instead. -/
theorem c7_counterexample :
    (DomainEvent.make ("u1") ("2024-01-01T00:00:00.000Z") ("incoming-message")
        ({ chatId := 1, userId := 7, messageText := "hi" } : MsgPayload)
        { correlationId := some (""), causationId := none }).metadata.correlationId
      ≠ some ("") := by
  decide

/-- C7 (amended): the `DomainEvent` constructor returns an instance with a
    fresh, globally unique `eventId` (distinct uuid-supply draws give
    distinct ids), the given type and payload, `metadata.timestamp` equal
    to the creation time, no `logId`, and `correlationId`/`causationId`
    copied from the supplied metadata when present and non-empty, and
    defaulted to null when absent or the empty string (JavaScript-falsy);
    it has no other public behaviour. -/
theorem c7_constructor_amended {α : Type} (m n : Nat) (now typ : String) (p : α)
    (meta : MetaArg) (hmn : m ≠ n) :
    (DomainEvent.make (uuidv4 m) now typ p meta).eventId
        ≠ (DomainEvent.make (uuidv4 n) now typ p meta).eventId
    ∧ (DomainEvent.make (uuidv4 m) now typ p meta).type = typ
    ∧ (DomainEvent.make (uuidv4 m) now typ p meta).payload = p
    ∧ (DomainEvent.make (uuidv4 m) now typ p meta).metadata.timestamp = now
    ∧ (DomainEvent.make (uuidv4 m) now typ p meta).metadata.logId = none
    ∧ (meta.correlationId = none →
        (DomainEvent.make (uuidv4 m) now typ p meta).metadata.correlationId = none)
    ∧ (meta.correlationId = some ("") →
        (DomainEvent.make (uuidv4 m) now typ p meta).metadata.correlationId = none)
    ∧ (∀ s, meta.correlationId = some s → s ≠ "" →
        (DomainEvent.make (uuidv4 m) now typ p meta).metadata.correlationId = some s)
    ∧ (meta.causationId = none →
        (DomainEvent.make (uuidv4 m) now typ p meta).metadata.causationId = none)
    ∧ (meta.causationId = some ("") →
        (DomainEvent.make (uuidv4 m) now typ p meta).metadata.causationId = none)
    ∧ (∀ s, meta.causationId = some s → s ≠ "" →
        (DomainEvent.make (uuidv4 m) now typ p meta).metadata.causationId = some s) := by
  refine ⟨?_, rfl, rfl, rfl, rfl, ?_, ?_, ?_, ?_, ?_, ?_⟩
  · intro h
    exact hmn (uuidv4_injOn h)
  · intro h
    simp [DomainEvent.make, jsOrNull, h]
  · intro h
    simp [DomainEvent.make, jsOrNull, h]
  · intro s h hs
    simp [DomainEvent.make, jsOrNull, h, hs]
  · intro h
    simp [DomainEvent.make, jsOrNull, h]
  · intro h
    simp [DomainEvent.make, jsOrNull, h]
  · intro s h hs
    simp [DomainEvent.make, jsOrNull, h, hs]

/-- Witness for the guaranteed-phase theorem: a concrete publish whose
    append succeeds with log identifier 42. -/
theorem c2_witness :
    (((fun _ : String => [(⟨1, fun _ => false⟩ : Handler MsgPayload)]) (⟨"u1", "incoming-message", ⟨1, 7, "hi"⟩, ⟨"t0", some ("c0"), none, none⟩⟩ : DomainEvent MsgPayload).type).any (fun x => x.throws (⟨"u1", "incoming-message", ⟨1, 7, "hi"⟩, ⟨"t0", some ("c0"), none, none⟩⟩ : DomainEvent MsgPayload)) = false)
    ∧ ((fun _ : DomainEvent MsgPayload => DbResult.ok 42) (⟨"u1", "incoming-message", ⟨1, 7, "hi"⟩, ⟨"t0", some ("c0"), none, none⟩⟩ : DomainEvent MsgPayload) = DbResult.ok 42)
    ∧ (((fun _ : String => [(⟨1, fun _ => false⟩ : Handler MsgPayload)]) ((⟨"u1", "incoming-message", ⟨1, 7, "hi"⟩, ⟨"t0", some ("c0"), none, none⟩⟩ : DomainEvent MsgPayload).type ++ "-KAFKED")).any
        (fun x => x.throws (promote (⟨"u1", "incoming-message", ⟨1, 7, "hi"⟩, ⟨"t0", some ("c0"), none, none⟩⟩ : DomainEvent MsgPayload) 42)) = false)
    ∧ (guaranteedDeliveries (busEmit (fun _ : String => [(⟨1, fun _ => false⟩ : Handler MsgPayload)]) (fun _ : DomainEvent MsgPayload => DbResult.ok 42) (⟨"u1", "incoming-message", ⟨1, 7, "hi"⟩, ⟨"t0", some ("c0"), none, none⟩⟩ : DomainEvent MsgPayload)).trace
        = ((fun _ : String => [(⟨1, fun _ => false⟩ : Handler MsgPayload)]) ((⟨"u1", "incoming-message", ⟨1, 7, "hi"⟩, ⟨"t0", some ("c0"), none, none⟩⟩ : DomainEvent MsgPayload).type ++ "-KAFKED")).map (fun x => (x.hid, promote (⟨"u1", "incoming-message", ⟨1, 7, "hi"⟩, ⟨"t0", some ("c0"), none, none⟩⟩ : DomainEvent MsgPayload) 42))
      ∧ (∀ d ∈ guaranteedDeliveries (busEmit (fun _ : String => [(⟨1, fun _ => false⟩ : Handler MsgPayload)]) (fun _ : DomainEvent MsgPayload => DbResult.ok 42) (⟨"u1", "incoming-message", ⟨1, 7, "hi"⟩, ⟨"t0", some ("c0"), none, none⟩⟩ : DomainEvent MsgPayload)).trace,
          d.2.type = (⟨"u1", "incoming-message", ⟨1, 7, "hi"⟩, ⟨"t0", some ("c0"), none, none⟩⟩ : DomainEvent MsgPayload).type ++ "-KAFKED" ∧ d.2.metadata.logId = some 42)
      ∧ (busEmit (fun _ : String => [(⟨1, fun _ => false⟩ : Handler MsgPayload)]) (fun _ : DomainEvent MsgPayload => DbResult.ok 42) (⟨"u1", "incoming-message", ⟨1, 7, "hi"⟩, ⟨"t0", some ("c0"), none, none⟩⟩ : DomainEvent MsgPayload)).trace
        = ((fun _ : String => [(⟨1, fun _ => false⟩ : Handler MsgPayload)]) (⟨"u1", "incoming-message", ⟨1, 7, "hi"⟩, ⟨"t0", some ("c0"), none, none⟩⟩ : DomainEvent MsgPayload).type).map (fun x => Step.eagerCall x.hid (⟨"u1", "incoming-message", ⟨1, 7, "hi"⟩, ⟨"t0", some ("c0"), none, none⟩⟩ : DomainEvent MsgPayload))
          ++ Step.appendCall (⟨"u1", "incoming-message", ⟨1, 7, "hi"⟩, ⟨"t0", some ("c0"), none, none⟩⟩ : DomainEvent MsgPayload) (DbResult.ok 42)
            :: ((fun _ : String => [(⟨1, fun _ => false⟩ : Handler MsgPayload)]) ((⟨"u1", "incoming-message", ⟨1, 7, "hi"⟩, ⟨"t0", some ("c0"), none, none⟩⟩ : DomainEvent MsgPayload).type ++ "-KAFKED")).map
                (fun x => Step.guaranteedCall x.hid (promote (⟨"u1", "incoming-message", ⟨1, 7, "hi"⟩, ⟨"t0", some ("c0"), none, none⟩⟩ : DomainEvent MsgPayload) 42))) :=
  ⟨by decide, rfl, by decide,
    c2_guaranteed_phase_exactly_once (fun _ : String => [(⟨1, fun _ => false⟩ : Handler MsgPayload)]) (fun _ : DomainEvent MsgPayload => DbResult.ok 42) (⟨"u1", "incoming-message", ⟨1, 7, "hi"⟩, ⟨"t0", some ("c0"), none, none⟩⟩ : DomainEvent MsgPayload) 42 (by decide) rfl (by decide)⟩

/-- Witness for the append-failure theorem: a concrete publish whose
    append rejects. -/
theorem c3_witness :
    (((fun _ : String => [(⟨1, fun _ => false⟩ : Handler MsgPayload)]) (⟨"u1", "incoming-message", ⟨1, 7, "hi"⟩, ⟨"t0", some ("c0"), none, none⟩⟩ : DomainEvent MsgPayload).type).any (fun x => x.throws (⟨"u1", "incoming-message", ⟨1, 7, "hi"⟩, ⟨"t0", some ("c0"), none, none⟩⟩ : DomainEvent MsgPayload)) = false)
    ∧ ((fun _ : DomainEvent MsgPayload => (DbResult.error ("db down") : DbResult Nat)) (⟨"u1", "incoming-message", ⟨1, 7, "hi"⟩, ⟨"t0", some ("c0"), none, none⟩⟩ : DomainEvent MsgPayload) = DbResult.error ("db down"))
    ∧ ((⟨"u1", "incoming-message", ⟨1, 7, "hi"⟩, ⟨"t0", some ("c0"), none, none⟩⟩ : DomainEvent MsgPayload).metadata.logId = none)
    ∧ (¬ hasKafkedTag (⟨"u1", "incoming-message", ⟨1, 7, "hi"⟩, ⟨"t0", some ("c0"), none, none⟩⟩ : DomainEvent MsgPayload).type)
    ∧ (guaranteedDeliveries (busEmit (fun _ : String => [(⟨1, fun _ => false⟩ : Handler MsgPayload)]) (fun _ : DomainEvent MsgPayload => (DbResult.error ("db down") : DbResult Nat)) (⟨"u1", "incoming-message", ⟨1, 7, "hi"⟩, ⟨"t0", some ("c0"), none, none⟩⟩ : DomainEvent MsgPayload)).trace = []
      ∧ (busEmit (fun _ : String => [(⟨1, fun _ => false⟩ : Handler MsgPayload)]) (fun _ : DomainEvent MsgPayload => (DbResult.error ("db down") : DbResult Nat)) (⟨"u1", "incoming-message", ⟨1, 7, "hi"⟩, ⟨"t0", some ("c0"), none, none⟩⟩ : DomainEvent MsgPayload)).finalEvent = (⟨"u1", "incoming-message", ⟨1, 7, "hi"⟩, ⟨"t0", some ("c0"), none, none⟩⟩ : DomainEvent MsgPayload)
      ∧ ¬ hasKafkedTag (busEmit (fun _ : String => [(⟨1, fun _ => false⟩ : Handler MsgPayload)]) (fun _ : DomainEvent MsgPayload => (DbResult.error ("db down") : DbResult Nat)) (⟨"u1", "incoming-message", ⟨1, 7, "hi"⟩, ⟨"t0", some ("c0"), none, none⟩⟩ : DomainEvent MsgPayload)).finalEvent.type
      ∧ (busEmit (fun _ : String => [(⟨1, fun _ => false⟩ : Handler MsgPayload)]) (fun _ : DomainEvent MsgPayload => (DbResult.error ("db down") : DbResult Nat)) (⟨"u1", "incoming-message", ⟨1, 7, "hi"⟩, ⟨"t0", some ("c0"), none, none⟩⟩ : DomainEvent MsgPayload)).finalEvent.metadata.logId = none
      ∧ eagerDeliveries (busEmit (fun _ : String => [(⟨1, fun _ => false⟩ : Handler MsgPayload)]) (fun _ : DomainEvent MsgPayload => (DbResult.error ("db down") : DbResult Nat)) (⟨"u1", "incoming-message", ⟨1, 7, "hi"⟩, ⟨"t0", some ("c0"), none, none⟩⟩ : DomainEvent MsgPayload)).trace
          = ((fun _ : String => [(⟨1, fun _ => false⟩ : Handler MsgPayload)]) (⟨"u1", "incoming-message", ⟨1, 7, "hi"⟩, ⟨"t0", some ("c0"), none, none⟩⟩ : DomainEvent MsgPayload).type).map (fun x => (x.hid, (⟨"u1", "incoming-message", ⟨1, 7, "hi"⟩, ⟨"t0", some ("c0"), none, none⟩⟩ : DomainEvent MsgPayload)))
      ∧ errorReports (busEmit (fun _ : String => [(⟨1, fun _ => false⟩ : Handler MsgPayload)]) (fun _ : DomainEvent MsgPayload => (DbResult.error ("db down") : DbResult Nat)) (⟨"u1", "incoming-message", ⟨1, 7, "hi"⟩, ⟨"t0", some ("c0"), none, none⟩⟩ : DomainEvent MsgPayload)).trace = 1) :=
  ⟨by decide, rfl, rfl, by decide,
    c3_append_failure_not_promoted (fun _ : String => [(⟨1, fun _ => false⟩ : Handler MsgPayload)]) (fun _ : DomainEvent MsgPayload => (DbResult.error ("db down") : DbResult Nat)) (⟨"u1", "incoming-message", ⟨1, 7, "hi"⟩, ⟨"t0", some ("c0"), none, none⟩⟩ : DomainEvent MsgPayload) ("db down")
      (by decide) rfl rfl (by decide)⟩

/-- Witness for the phase-ordering theorem at a concrete publish. -/
theorem c4_witness :
    ((⟨"u1", "incoming-message", ⟨1, 7, "hi"⟩, ⟨"t0", some ("c0"), none, none⟩⟩ : DomainEvent MsgPayload).metadata.logId = none)
    ∧ ((∀ d ∈ eagerDeliveries (busEmit (fun _ : String => [(⟨1, fun _ => false⟩ : Handler MsgPayload)]) (fun _ : DomainEvent MsgPayload => DbResult.ok 42) (⟨"u1", "incoming-message", ⟨1, 7, "hi"⟩, ⟨"t0", some ("c0"), none, none⟩⟩ : DomainEvent MsgPayload)).trace, d.2 = (⟨"u1", "incoming-message", ⟨1, 7, "hi"⟩, ⟨"t0", some ("c0"), none, none⟩⟩ : DomainEvent MsgPayload))
      ∧ (∀ d ∈ eagerDeliveries (busEmit (fun _ : String => [(⟨1, fun _ => false⟩ : Handler MsgPayload)]) (fun _ : DomainEvent MsgPayload => DbResult.ok 42) (⟨"u1", "incoming-message", ⟨1, 7, "hi"⟩, ⟨"t0", some ("c0"), none, none⟩⟩ : DomainEvent MsgPayload)).trace,
          d.2.metadata.logId = none)
      ∧ ((busEmit (fun _ : String => [(⟨1, fun _ => false⟩ : Handler MsgPayload)]) (fun _ : DomainEvent MsgPayload => DbResult.ok 42) (⟨"u1", "incoming-message", ⟨1, 7, "hi"⟩, ⟨"t0", some ("c0"), none, none⟩⟩ : DomainEvent MsgPayload)).trace.map stepRank).Sorted (· ≤ ·)) :=
  ⟨rfl, c4_phase_ordering (fun _ : String => [(⟨1, fun _ => false⟩ : Handler MsgPayload)]) (fun _ : DomainEvent MsgPayload => DbResult.ok 42) (⟨"u1", "incoming-message", ⟨1, 7, "hi"⟩, ⟨"t0", some ("c0"), none, none⟩⟩ : DomainEvent MsgPayload) rfl⟩

/-- Witness for the projector-abort theorem: the re-fetch finds no record
    at the notified log position. -/
theorem c5_witness :
    ((fun _ : Option Nat => DbResult.ok (none : Option StoredEvent)) (⟨"u7", "incoming-message-KAFKED", ⟨1, 7, "hi"⟩, ⟨"t0", some ("c0"), none, some 42⟩⟩ : DomainEvent MsgPayload).metadata.logId = DbResult.ok none
      ∨ ∃ ev, (fun _ : Option Nat => DbResult.ok (none : Option StoredEvent)) (⟨"u7", "incoming-message-KAFKED", ⟨1, 7, "hi"⟩, ⟨"t0", some ("c0"), none, some 42⟩⟩ : DomainEvent MsgPayload).metadata.logId = DbResult.ok (some ev)
          ∧ ev.type ≠ "incoming-message")
    ∧ ((projectorHandle (fun _ : Option Nat => DbResult.ok (none : Option StoredEvent)) (fun c u m => DbResult.ok ((⟨c, u, m⟩ : MsgPayload))) ("u9") ("t9") (⟨"u7", "incoming-message-KAFKED", ⟨1, 7, "hi"⟩, ⟨"t0", some ("c0"), none, some 42⟩⟩ : DomainEvent MsgPayload)).writeCalls = []
      ∧ (projectorHandle (fun _ : Option Nat => DbResult.ok (none : Option StoredEvent)) (fun c u m => DbResult.ok ((⟨c, u, m⟩ : MsgPayload))) ("u9") ("t9") (⟨"u7", "incoming-message-KAFKED", ⟨1, 7, "hi"⟩, ⟨"t0", some ("c0"), none, some 42⟩⟩ : DomainEvent MsgPayload)).emits = []
      ∧ (projectorHandle (fun _ : Option Nat => DbResult.ok (none : Option StoredEvent)) (fun c u m => DbResult.ok ((⟨c, u, m⟩ : MsgPayload))) ("u9") ("t9") (⟨"u7", "incoming-message-KAFKED", ⟨1, 7, "hi"⟩, ⟨"t0", some ("c0"), none, some 42⟩⟩ : DomainEvent MsgPayload)).errorLogs = 1
      ∧ (projectorHandle (fun _ : Option Nat => DbResult.ok (none : Option StoredEvent)) (fun c u m => DbResult.ok ((⟨c, u, m⟩ : MsgPayload))) ("u9") ("t9") (⟨"u7", "incoming-message-KAFKED", ⟨1, 7, "hi"⟩, ⟨"t0", some ("c0"), none, some 42⟩⟩ : DomainEvent MsgPayload)).fetchCalls
          = [(⟨"u7", "incoming-message-KAFKED", ⟨1, 7, "hi"⟩, ⟨"t0", some ("c0"), none, some 42⟩⟩ : DomainEvent MsgPayload).metadata.logId]) :=
  ⟨Or.inl rfl,
    c5_projector_abort_on_invalid_fetch (fun _ : Option Nat => DbResult.ok (none : Option StoredEvent)) (fun c u m => DbResult.ok ((⟨c, u, m⟩ : MsgPayload))) ("u9") ("t9") (⟨"u7", "incoming-message-KAFKED", ⟨1, 7, "hi"⟩, ⟨"t0", some ("c0"), none, some 42⟩⟩ : DomainEvent MsgPayload) (Or.inl rfl)⟩

/-- Witness for the projected-event causality theorem at a concrete
    successful projection. -/
theorem c6_witness :
    ((fun _ : Option Nat => DbResult.ok (some (⟨"incoming-message", ⟨1, 7, "hi"⟩⟩ : StoredEvent))) (⟨"u7", "incoming-message-KAFKED", ⟨1, 7, "hi"⟩, ⟨"t0", some ("c0"), none, some 42⟩⟩ : DomainEvent MsgPayload).metadata.logId = DbResult.ok (some (⟨"incoming-message", ⟨1, 7, "hi"⟩⟩ : StoredEvent)))
    ∧ ((⟨"incoming-message", ⟨1, 7, "hi"⟩⟩ : StoredEvent).type = "incoming-message")
    ∧ ((fun c u m => DbResult.ok ((⟨c, u, m⟩ : MsgPayload))) (⟨"u7", "incoming-message-KAFKED", ⟨1, 7, "hi"⟩, ⟨"t0", some ("c0"), none, some 42⟩⟩ : DomainEvent MsgPayload).payload.chatId (⟨"u7", "incoming-message-KAFKED", ⟨1, 7, "hi"⟩, ⟨"t0", some ("c0"), none, some 42⟩⟩ : DomainEvent MsgPayload).payload.userId (⟨"u7", "incoming-message-KAFKED", ⟨1, 7, "hi"⟩, ⟨"t0", some ("c0"), none, some 42⟩⟩ : DomainEvent MsgPayload).payload.messageText
        = DbResult.ok (⟨1, 7, "hi"⟩ : MsgPayload))
    ∧ ((⟨"u7", "incoming-message-KAFKED", ⟨1, 7, "hi"⟩, ⟨"t0", some ("c0"), none, some 42⟩⟩ : DomainEvent MsgPayload).metadata.correlationId ≠ some (""))
    ∧ ((⟨"u7", "incoming-message-KAFKED", ⟨1, 7, "hi"⟩, ⟨"t0", some ("c0"), none, some 42⟩⟩ : DomainEvent MsgPayload).eventId ≠ "")
    ∧ ((projectorHandle (fun _ : Option Nat => DbResult.ok (some (⟨"incoming-message", ⟨1, 7, "hi"⟩⟩ : StoredEvent))) (fun c u m => DbResult.ok ((⟨c, u, m⟩ : MsgPayload))) ("u9") ("t9") (⟨"u7", "incoming-message-KAFKED", ⟨1, 7, "hi"⟩, ⟨"t0", some ("c0"), none, some 42⟩⟩ : DomainEvent MsgPayload)).emits.length = 1
      ∧ ∀ d ∈ (projectorHandle (fun _ : Option Nat => DbResult.ok (some (⟨"incoming-message", ⟨1, 7, "hi"⟩⟩ : StoredEvent))) (fun c u m => DbResult.ok ((⟨c, u, m⟩ : MsgPayload))) ("u9") ("t9") (⟨"u7", "incoming-message-KAFKED", ⟨1, 7, "hi"⟩, ⟨"t0", some ("c0"), none, some 42⟩⟩ : DomainEvent MsgPayload)).emits,
          d.type = "message-projected"
          ∧ d.metadata.correlationId = (⟨"u7", "incoming-message-KAFKED", ⟨1, 7, "hi"⟩, ⟨"t0", some ("c0"), none, some 42⟩⟩ : DomainEvent MsgPayload).metadata.correlationId
          ∧ d.metadata.causationId = some (⟨"u7", "incoming-message-KAFKED", ⟨1, 7, "hi"⟩, ⟨"t0", some ("c0"), none, some 42⟩⟩ : DomainEvent MsgPayload).eventId) :=
  ⟨rfl, rfl, rfl, by decide, by decide,
    c6_projected_event_causality (fun _ : Option Nat => DbResult.ok (some (⟨"incoming-message", ⟨1, 7, "hi"⟩⟩ : StoredEvent))) (fun c u m => DbResult.ok ((⟨c, u, m⟩ : MsgPayload))) ("u9") ("t9") (⟨"u7", "incoming-message-KAFKED", ⟨1, 7, "hi"⟩, ⟨"t0", some ("c0"), none, some 42⟩⟩ : DomainEvent MsgPayload) (⟨"incoming-message", ⟨1, 7, "hi"⟩⟩ : StoredEvent) (⟨1, 7, "hi"⟩ : MsgPayload)
      rfl rfl rfl (by decide) (by decide)⟩

/-- Witness for the amended constructor theorem at two concrete distinct
    uuid-supply draws. -/
theorem c7_witness :
    ((0 : Nat) ≠ 1)
    ∧ ((DomainEvent.make (uuidv4 0) ("t0") ("incoming-message") (⟨1, 7, "hi"⟩ : MsgPayload) (⟨some ("c0"), none⟩ : MetaArg)).eventId ≠ (DomainEvent.make (uuidv4 1) ("t0") ("incoming-message") (⟨1, 7, "hi"⟩ : MsgPayload) (⟨some ("c0"), none⟩ : MetaArg)).eventId
      ∧ (DomainEvent.make (uuidv4 0) ("t0") ("incoming-message") (⟨1, 7, "hi"⟩ : MsgPayload) (⟨some ("c0"), none⟩ : MetaArg)).type = "incoming-message"
      ∧ (DomainEvent.make (uuidv4 0) ("t0") ("incoming-message") (⟨1, 7, "hi"⟩ : MsgPayload) (⟨some ("c0"), none⟩ : MetaArg)).payload = (⟨1, 7, "hi"⟩ : MsgPayload)
      ∧ (DomainEvent.make (uuidv4 0) ("t0") ("incoming-message") (⟨1, 7, "hi"⟩ : MsgPayload) (⟨some ("c0"), none⟩ : MetaArg)).metadata.timestamp = "t0"
      ∧ (DomainEvent.make (uuidv4 0) ("t0") ("incoming-message") (⟨1, 7, "hi"⟩ : MsgPayload) (⟨some ("c0"), none⟩ : MetaArg)).metadata.logId = none
      ∧ ((⟨some ("c0"), none⟩ : MetaArg).correlationId = none → (DomainEvent.make (uuidv4 0) ("t0") ("incoming-message") (⟨1, 7, "hi"⟩ : MsgPayload) (⟨some ("c0"), none⟩ : MetaArg)).metadata.correlationId = none)
      ∧ ((⟨some ("c0"), none⟩ : MetaArg).correlationId = some ("") → (DomainEvent.make (uuidv4 0) ("t0") ("incoming-message") (⟨1, 7, "hi"⟩ : MsgPayload) (⟨some ("c0"), none⟩ : MetaArg)).metadata.correlationId = none)
      ∧ (∀ s, (⟨some ("c0"), none⟩ : MetaArg).correlationId = some s → s ≠ "" →
          (DomainEvent.make (uuidv4 0) ("t0") ("incoming-message") (⟨1, 7, "hi"⟩ : MsgPayload) (⟨some ("c0"), none⟩ : MetaArg)).metadata.correlationId = some s)
      ∧ ((⟨some ("c0"), none⟩ : MetaArg).causationId = none → (DomainEvent.make (uuidv4 0) ("t0") ("incoming-message") (⟨1, 7, "hi"⟩ : MsgPayload) (⟨some ("c0"), none⟩ : MetaArg)).metadata.causationId = none)
      ∧ ((⟨some ("c0"), none⟩ : MetaArg).causationId = some ("") → (DomainEvent.make (uuidv4 0) ("t0") ("incoming-message") (⟨1, 7, "hi"⟩ : MsgPayload) (⟨some ("c0"), none⟩ : MetaArg)).metadata.causationId = none)
      ∧ (∀ s, (⟨some ("c0"), none⟩ : MetaArg).causationId = some s → s ≠ "" →
          (DomainEvent.make (uuidv4 0) ("t0") ("incoming-message") (⟨1, 7, "hi"⟩ : MsgPayload) (⟨some ("c0"), none⟩ : MetaArg)).metadata.causationId = some s)) :=
  ⟨by decide,
    c7_constructor_amended 0 1 ("t0") ("incoming-message")
      (⟨1, 7, "hi"⟩ : MsgPayload) (⟨some ("c0"), none⟩ : MetaArg) (by decide)⟩

/-- Witness for the delivery tag invariant at a concrete publish. -/
theorem c8_witness :
    ((⟨"u1", "incoming-message", ⟨1, 7, "hi"⟩, ⟨"t0", some ("c0"), none, none⟩⟩ : DomainEvent MsgPayload).metadata.logId = none)
    ∧ (¬ hasKafkedTag (⟨"u1", "incoming-message", ⟨1, 7, "hi"⟩, ⟨"t0", some ("c0"), none, none⟩⟩ : DomainEvent MsgPayload).type)
    ∧ (∀ d ∈ allDeliveries (busEmit (fun _ : String => [(⟨1, fun _ => false⟩ : Handler MsgPayload)]) (fun _ : DomainEvent MsgPayload => DbResult.ok 42) (⟨"u1", "incoming-message", ⟨1, 7, "hi"⟩, ⟨"t0", some ("c0"), none, none⟩⟩ : DomainEvent MsgPayload)).trace,
        (hasKafkedTag d.2.type → d.2.metadata.logId ≠ none)
        ∧ (¬ hasKafkedTag d.2.type → d.2.metadata.logId = none)) :=
  ⟨rfl, by decide, c8_delivery_tag_invariant (fun _ : String => [(⟨1, fun _ => false⟩ : Handler MsgPayload)]) (fun _ : DomainEvent MsgPayload => DbResult.ok 42) (⟨"u1", "incoming-message", ⟨1, 7, "hi"⟩, ⟨"t0", some ("c0"), none, none⟩⟩ : DomainEvent MsgPayload) rfl (by decide)⟩

/-- Witness for the promotion frame theorem at a concrete publish. -/
theorem c9_witness :
    (((fun _ : String => [(⟨1, fun _ => false⟩ : Handler MsgPayload)]) (⟨"u1", "incoming-message", ⟨1, 7, "hi"⟩, ⟨"t0", some ("c0"), none, none⟩⟩ : DomainEvent MsgPayload).type).any (fun x => x.throws (⟨"u1", "incoming-message", ⟨1, 7, "hi"⟩, ⟨"t0", some ("c0"), none, none⟩⟩ : DomainEvent MsgPayload)) = false)
    ∧ ((fun _ : DomainEvent MsgPayload => DbResult.ok 42) (⟨"u1", "incoming-message", ⟨1, 7, "hi"⟩, ⟨"t0", some ("c0"), none, none⟩⟩ : DomainEvent MsgPayload) = DbResult.ok 42)
    ∧ ((busEmit (fun _ : String => [(⟨1, fun _ => false⟩ : Handler MsgPayload)]) (fun _ : DomainEvent MsgPayload => DbResult.ok 42) (⟨"u1", "incoming-message", ⟨1, 7, "hi"⟩, ⟨"t0", some ("c0"), none, none⟩⟩ : DomainEvent MsgPayload)).finalEvent.eventId = (⟨"u1", "incoming-message", ⟨1, 7, "hi"⟩, ⟨"t0", some ("c0"), none, none⟩⟩ : DomainEvent MsgPayload).eventId
      ∧ (busEmit (fun _ : String => [(⟨1, fun _ => false⟩ : Handler MsgPayload)]) (fun _ : DomainEvent MsgPayload => DbResult.ok 42) (⟨"u1", "incoming-message", ⟨1, 7, "hi"⟩, ⟨"t0", some ("c0"), none, none⟩⟩ : DomainEvent MsgPayload)).finalEvent.payload = (⟨"u1", "incoming-message", ⟨1, 7, "hi"⟩, ⟨"t0", some ("c0"), none, none⟩⟩ : DomainEvent MsgPayload).payload
      ∧ (busEmit (fun _ : String => [(⟨1, fun _ => false⟩ : Handler MsgPayload)]) (fun _ : DomainEvent MsgPayload => DbResult.ok 42) (⟨"u1", "incoming-message", ⟨1, 7, "hi"⟩, ⟨"t0", some ("c0"), none, none⟩⟩ : DomainEvent MsgPayload)).finalEvent.metadata.timestamp
          = (⟨"u1", "incoming-message", ⟨1, 7, "hi"⟩, ⟨"t0", some ("c0"), none, none⟩⟩ : DomainEvent MsgPayload).metadata.timestamp
      ∧ (busEmit (fun _ : String => [(⟨1, fun _ => false⟩ : Handler MsgPayload)]) (fun _ : DomainEvent MsgPayload => DbResult.ok 42) (⟨"u1", "incoming-message", ⟨1, 7, "hi"⟩, ⟨"t0", some ("c0"), none, none⟩⟩ : DomainEvent MsgPayload)).finalEvent.metadata.correlationId
          = (⟨"u1", "incoming-message", ⟨1, 7, "hi"⟩, ⟨"t0", some ("c0"), none, none⟩⟩ : DomainEvent MsgPayload).metadata.correlationId
      ∧ (busEmit (fun _ : String => [(⟨1, fun _ => false⟩ : Handler MsgPayload)]) (fun _ : DomainEvent MsgPayload => DbResult.ok 42) (⟨"u1", "incoming-message", ⟨1, 7, "hi"⟩, ⟨"t0", some ("c0"), none, none⟩⟩ : DomainEvent MsgPayload)).finalEvent.metadata.causationId
          = (⟨"u1", "incoming-message", ⟨1, 7, "hi"⟩, ⟨"t0", some ("c0"), none, none⟩⟩ : DomainEvent MsgPayload).metadata.causationId
      ∧ (busEmit (fun _ : String => [(⟨1, fun _ => false⟩ : Handler MsgPayload)]) (fun _ : DomainEvent MsgPayload => DbResult.ok 42) (⟨"u1", "incoming-message", ⟨1, 7, "hi"⟩, ⟨"t0", some ("c0"), none, none⟩⟩ : DomainEvent MsgPayload)).finalEvent.type = (⟨"u1", "incoming-message", ⟨1, 7, "hi"⟩, ⟨"t0", some ("c0"), none, none⟩⟩ : DomainEvent MsgPayload).type ++ "-KAFKED"
      ∧ (busEmit (fun _ : String => [(⟨1, fun _ => false⟩ : Handler MsgPayload)]) (fun _ : DomainEvent MsgPayload => DbResult.ok 42) (⟨"u1", "incoming-message", ⟨1, 7, "hi"⟩, ⟨"t0", some ("c0"), none, none⟩⟩ : DomainEvent MsgPayload)).finalEvent.metadata.logId = some 42
      ∧ (∀ d ∈ eagerDeliveries (busEmit (fun _ : String => [(⟨1, fun _ => false⟩ : Handler MsgPayload)]) (fun _ : DomainEvent MsgPayload => DbResult.ok 42) (⟨"u1", "incoming-message", ⟨1, 7, "hi"⟩, ⟨"t0", some ("c0"), none, none⟩⟩ : DomainEvent MsgPayload)).trace, d.2 = (⟨"u1", "incoming-message", ⟨1, 7, "hi"⟩, ⟨"t0", some ("c0"), none, none⟩⟩ : DomainEvent MsgPayload))
      ∧ (∀ d ∈ guaranteedDeliveries (busEmit (fun _ : String => [(⟨1, fun _ => false⟩ : Handler MsgPayload)]) (fun _ : DomainEvent MsgPayload => DbResult.ok 42) (⟨"u1", "incoming-message", ⟨1, 7, "hi"⟩, ⟨"t0", some ("c0"), none, none⟩⟩ : DomainEvent MsgPayload)).trace,
          d.2 = (busEmit (fun _ : String => [(⟨1, fun _ => false⟩ : Handler MsgPayload)]) (fun _ : DomainEvent MsgPayload => DbResult.ok 42) (⟨"u1", "incoming-message", ⟨1, 7, "hi"⟩, ⟨"t0", some ("c0"), none, none⟩⟩ : DomainEvent MsgPayload)).finalEvent)) :=
  ⟨by decide, rfl, c9_promotion_frame (fun _ : String => [(⟨1, fun _ => false⟩ : Handler MsgPayload)]) (fun _ : DomainEvent MsgPayload => DbResult.ok 42) (⟨"u1", "incoming-message", ⟨1, 7, "hi"⟩, ⟨"t0", some ("c0"), none, none⟩⟩ : DomainEvent MsgPayload) 42 (by decide) rfl⟩

/-- Witness for the failure-swallowing theorem: a concrete publish whose
    single eager listener throws synchronously. -/
theorem c10_witness :
    (((fun _ : String => [(⟨1, fun _ => true⟩ : Handler MsgPayload)]) (⟨"u1", "incoming-message", ⟨1, 7, "hi"⟩, ⟨"t0", some ("c0"), none, none⟩⟩ : DomainEvent MsgPayload).type).any (fun x => x.throws (⟨"u1", "incoming-message", ⟨1, 7, "hi"⟩, ⟨"t0", some ("c0"), none, none⟩⟩ : DomainEvent MsgPayload)) = true)
    ∧ ((busEmit (fun _ : String => [(⟨1, fun _ => true⟩ : Handler MsgPayload)]) (fun _ : DomainEvent MsgPayload => DbResult.ok 42) (⟨"u1", "incoming-message", ⟨1, 7, "hi"⟩, ⟨"t0", some ("c0"), none, none⟩⟩ : DomainEvent MsgPayload)).thrownToCaller = false)
    ∧ (appendAttempts (busEmit (fun _ : String => [(⟨1, fun _ => true⟩ : Handler MsgPayload)]) (fun _ : DomainEvent MsgPayload => DbResult.ok 42) (⟨"u1", "incoming-message", ⟨1, 7, "hi"⟩, ⟨"t0", some ("c0"), none, none⟩⟩ : DomainEvent MsgPayload)).trace = []
      ∧ guaranteedDeliveries (busEmit (fun _ : String => [(⟨1, fun _ => true⟩ : Handler MsgPayload)]) (fun _ : DomainEvent MsgPayload => DbResult.ok 42) (⟨"u1", "incoming-message", ⟨1, 7, "hi"⟩, ⟨"t0", some ("c0"), none, none⟩⟩ : DomainEvent MsgPayload)).trace = []
      ∧ (busEmit (fun _ : String => [(⟨1, fun _ => true⟩ : Handler MsgPayload)]) (fun _ : DomainEvent MsgPayload => DbResult.ok 42) (⟨"u1", "incoming-message", ⟨1, 7, "hi"⟩, ⟨"t0", some ("c0"), none, none⟩⟩ : DomainEvent MsgPayload)).finalEvent = (⟨"u1", "incoming-message", ⟨1, 7, "hi"⟩, ⟨"t0", some ("c0"), none, none⟩⟩ : DomainEvent MsgPayload)
      ∧ errorReports (busEmit (fun _ : String => [(⟨1, fun _ => true⟩ : Handler MsgPayload)]) (fun _ : DomainEvent MsgPayload => DbResult.ok 42) (⟨"u1", "incoming-message", ⟨1, 7, "hi"⟩, ⟨"t0", some ("c0"), none, none⟩⟩ : DomainEvent MsgPayload)).trace = 1) :=
  ⟨by decide, (c10_emit_swallows_failures (fun _ : String => [(⟨1, fun _ => true⟩ : Handler MsgPayload)]) (fun _ : DomainEvent MsgPayload => DbResult.ok 42) (⟨"u1", "incoming-message", ⟨1, 7, "hi"⟩, ⟨"t0", some ("c0"), none, none⟩⟩ : DomainEvent MsgPayload)).1,
    (c10_emit_swallows_failures (fun _ : String => [(⟨1, fun _ => true⟩ : Handler MsgPayload)]) (fun _ : DomainEvent MsgPayload => DbResult.ok 42) (⟨"u1", "incoming-message", ⟨1, 7, "hi"⟩, ⟨"t0", some ("c0"), none, none⟩⟩ : DomainEvent MsgPayload)).2 (by decide)⟩

end Kafky
